import Mathlib

/-!
Verification development for the FDA/SEC announcement ingestion and
relevance-scoring pipeline.

The JavaScript source is shallowly embedded: pure functions become Lean
functions over explicit data, database effects become explicit state
passing, and the nondeterministic LLM response is a parameter.  JS
strings are modelled as Lean strings manipulated through their
character lists; JS timestamps (millisecond epoch values from
Date.now) are modelled as integers, with calendar arithmetic in UTC.
-/

/-! ## JavaScript-semantics helpers -/

/-- JS `parseInt(x) || d`: the optional integer is the result of parseInt
(`none` standing for NaN); a missing or zero value falls back to `d`
because `0` is falsy in JS. -/
def jsOrInt (o : Option Int) (d : Int) : Int :=
  match o with
  | none => d
  | some v => if v = 0 then d else v

/-- JS `s || d` on an optional string: `undefined`, `null` and the empty
string are falsy. -/
def jsStrOr (o : Option String) (d : String) : String :=
  match o with
  | none => d
  | some s => if s = "" then d else s

/-- JS `Math.max(0, Math.min(100, v))`. -/
def clamp100 (v : Int) : Int :=
  max 0 (min 100 v)

/-- JS `String.prototype.toUpperCase`, modelled per character. -/
def jsToUpper (s : String) : String :=
  ⟨s.toList.map Char.toUpper⟩

/-- JS `String.prototype.substring(0, n)`, modelled on the character list. -/
def jsTake (s : String) (n : Nat) : String :=
  ⟨s.toList.take n⟩

/-- JS string length, modelled as the number of characters. -/
def jsLen (s : String) : Nat :=
  s.toList.length

/-- Replace the first occurrence of a character (JS
`replace(target, repl)` with a plain-string pattern replaces only the
first hit). -/
def replaceFirstChar (target repl : Char) : List Char → List Char
  | [] => []
  | c :: rest =>
      if c = target then repl :: rest else c :: replaceFirstChar target repl rest

/-- JS `s.replace('_', ' ')`. -/
def jsReplaceUnderscore (s : String) : String :=
  ⟨replaceFirstChar '_' ' ' s.toList⟩

/-- Collapse each maximal whitespace run into a single underscore
(JS `replace(/\s+/g, '_')`); the boolean flag records whether the
previous character was whitespace. -/
def collapseWsAux : Bool → List Char → List Char
  | _, [] => []
  | inWs, c :: rest =>
      if c.isWhitespace then
        if inWs then collapseWsAux true rest
        else '_' :: collapseWsAux true rest
      else c :: collapseWsAux false rest

/-- JS tag normalisation `String(tag).toLowerCase().replace(/\s+/g, '_')`. -/
def normalizeTag (s : String) : String :=
  ⟨collapseWsAux false (s.toList.map Char.toLower)⟩

/-- Hexadecimal digit test, case insensitive, for the UUID format check. -/
def isHexChar (c : Char) : Bool :=
  c.isDigit || ('a' ≤ c && c ≤ 'f') || ('A' ≤ c && c ≤ 'F')

/-- JS regex `^[0-9a-f]{8}-[0-9a-f]{4}-[0-9a-f]{4}-[0-9a-f]{4}-[0-9a-f]{12}$/i`:
36 characters, hyphens at positions 8, 13, 18 and 23, hex digits elsewhere. -/
def isUuidFormat (s : String) : Bool :=
  let cs := s.toList
  cs.length = 36 &&
    (cs.zip (List.range cs.length)).all fun p =>
      if p.2 = 8 || p.2 = 13 || p.2 = 18 || p.2 = 23 then p.1 = '-'
      else isHexChar p.1

/-! ## Relevance classifier data model (src/app/api/fda/process/route.js) -/

/-- One row of `fda_announcements` as selected by the processing query. -/
structure FdaAnnouncement where
  id : String
  fda_id : String
  announcement_type : String
  title : String
  description : String
  sponsor_name : Option String
  product_name : Option String
  announcement_date : String
  classification : Option String
  deriving Repr, DecidableEq

/-- One processing-queue row joined with its announcement. -/
structure QueueItem where
  id : Nat
  fda_announcements : FdaAnnouncement
  deriving Repr, DecidableEq

/-- One element of the JSON array returned by the model, before
validation.  Numeric fields carry the `parseInt` result (`none` = NaN),
string fields are `none` when absent or not a string, `tags` is `none`
when not an array. -/
structure RawAnalysis where
  fda_announcement_id : Option String
  stock_ticker : Option String
  stock_exchange : Option String
  relevance_score : Option Int
  priority_level : Option String
  sentiment : Option String
  sentiment_strength : Option Int
  ai_summary : Option String
  market_impact_assessment : Option String
  tags : Option (List String)
  deriving Repr, DecidableEq

/-- The record produced by `validateAndCleanAnalysis` and
`getFallbackAnalysis`. -/
structure ValidatedAnalysis where
  fda_announcement_id : String
  stock_ticker : Option String
  stock_exchange : Option String
  relevance_score : Int
  priority_level : String
  sentiment : String
  sentiment_strength : Int
  ai_summary : String
  market_impact_assessment : String
  tags : List String
  deriving Repr, DecidableEq

/-- Embedding of `validateAndCleanAnalysis(analysis, queueItem)`. -/
def validateAndCleanAnalysis (analysis : RawAnalysis) (queueItem : QueueItem) :
    ValidatedAnalysis :=
  let announcement := queueItem.fda_announcements
  let candidateId := jsStrOr analysis.fda_announcement_id announcement.id
  { fda_announcement_id :=
      if isUuidFormat candidateId then candidateId else announcement.id
    stock_ticker :=
      match analysis.stock_ticker with
      | some s => if s ≠ "" && s ≠ "null" then some (jsToUpper s) else none
      | none => none
    stock_exchange :=
      match analysis.stock_exchange with
      | some s => if s ≠ "" then some (jsToUpper s) else none
      | none => none
    relevance_score := clamp100 (jsOrInt analysis.relevance_score 0)
    priority_level :=
      match analysis.priority_level with
      | some p => if p = "high" || p = "medium" || p = "low" then p else "medium"
      | none => "medium"
    sentiment :=
      match analysis.sentiment with
      | some p => if p = "bullish" || p = "bearish" || p = "neutral" then p else "neutral"
      | none => "neutral"
    sentiment_strength := clamp100 (jsOrInt analysis.sentiment_strength 50)
    ai_summary :=
      match analysis.ai_summary with
      | some s =>
          if jsLen s > 10 then jsTake s 500
          else jsReplaceUnderscore announcement.announcement_type ++ " from " ++
            jsStrOr announcement.sponsor_name "company"
      | none =>
          jsReplaceUnderscore announcement.announcement_type ++ " from " ++
            jsStrOr announcement.sponsor_name "company"
    market_impact_assessment :=
      match analysis.market_impact_assessment with
      | some s =>
          if jsLen s > 5 then jsTake s 300
          else "Market impact requires further analysis"
      | none => "Market impact requires further analysis"
    tags :=
      match analysis.tags with
      | some l => (l.take 5).map normalizeTag
      | none => [announcement.announcement_type, "fda", "regulatory"] }

/-- Fallback score table keyed by announcement type (`fallbackScores[t] || 50`). -/
def fallbackScore (t : String) : Int :=
  if t = "drug_approval" then 75
  else if t = "safety_alert" then 80
  else if t = "device_approval" then 60
  else 50

/-- Fallback priority table (`fallbackPriority[t] || 'medium'`). -/
def fallbackPriority (t : String) : String :=
  if t = "drug_approval" then "high"
  else if t = "safety_alert" then "high"
  else if t = "device_approval" then "medium"
  else "medium"

/-- Fallback sentiment table (`fallbackSentiment[t] || neutral/50`). -/
def fallbackSentimentPair (t : String) : String × Int :=
  if t = "drug_approval" then ("bullish", 70)
  else if t = "safety_alert" then ("bearish", 75)
  else if t = "device_approval" then ("bullish", 60)
  else ("neutral", 50)

/-- Embedding of `getFallbackAnalysis(announcement)`: the deterministic
classification used when the model call fails or returns too few rows. -/
def getFallbackAnalysis (announcement : FdaAnnouncement) : ValidatedAnalysis :=
  let sentimentData := fallbackSentimentPair announcement.announcement_type
  { fda_announcement_id := announcement.id
    stock_ticker := none
    stock_exchange := none
    relevance_score := fallbackScore announcement.announcement_type
    priority_level := fallbackPriority announcement.announcement_type
    sentiment := sentimentData.1
    sentiment_strength := sentimentData.2
    ai_summary :=
      jsReplaceUnderscore announcement.announcement_type ++
        " announcement from " ++ jsStrOr announcement.sponsor_name "company" ++
        " regarding " ++ jsStrOr announcement.product_name "product" ++ "."
    market_impact_assessment := "AI analysis unavailable - manual review recommended"
    tags := [announcement.announcement_type, "fda", "regulatory"] }

/-- A fallback object pushed into the parsed array is re-read by
`validateAndCleanAnalysis` through the same JS property accesses; this
is the corresponding raw view of its fields. -/
def rawOfFallback (v : ValidatedAnalysis) : RawAnalysis :=
  { fda_announcement_id := some v.fda_announcement_id
    stock_ticker := v.stock_ticker
    stock_exchange := v.stock_exchange
    relevance_score := some v.relevance_score
    priority_level := some v.priority_level
    sentiment := some v.sentiment
    sentiment_strength := some v.sentiment_strength
    ai_summary := some v.ai_summary
    market_impact_assessment := some v.market_impact_assessment
    tags := some v.tags }

/-- Outcome of defensively parsing the model's text response: code-fence
stripping and array extraction either fail to produce JSON, produce a
non-array JSON value, or produce an array of objects. -/
inductive ClaudeResponse where
  | notJson
  | nonArray
  | jsonArr (xs : List RawAnalysis)
  deriving Repr, DecidableEq

/-- Body of the `try` block of `batchAnalyzeWithClaude`: parse errors and
non-array responses throw; a parsed array is padded with subtype
fallbacks up to the batch size, truncated to the batch size, and each
entry validated against its queue item. -/
def batchAnalyzeCore (resp : ClaudeResponse) (batchItems : List QueueItem) :
    Except String (List ValidatedAnalysis) :=
  match resp with
  | .notJson => .error "Invalid JSON response from Claude"
  | .nonArray => .error "Claude response must be a JSON array"
  | .jsonArr analysisArray =>
      let padded := analysisArray ++
        (batchItems.drop analysisArray.length).map
          (fun item => rawOfFallback (getFallbackAnalysis item.fda_announcements))
      .ok (List.zipWith validateAndCleanAnalysis
        (padded.take batchItems.length) batchItems)

/-- Embedding of `batchAnalyzeWithClaude(batchItems)`: any error thrown
inside the try block is caught and replaced by the per-item fallback
analyses, so the function is total. -/
def batchAnalyzeWithClaude (resp : ClaudeResponse) (batchItems : List QueueItem) :
    List ValidatedAnalysis :=
  match batchAnalyzeCore resp batchItems with
  | .ok v => v
  | .error _ => batchItems.map (fun item => getFallbackAnalysis item.fda_announcements)

/-! ## Persistence of classification results (saveBatchAnalysisResult) -/

/-- Processing-queue status values. -/
inductive QueueStatus where
  | pending
  | processing
  | completed
  | failed
  deriving Repr, DecidableEq

/-- One `processing_queue` row as touched by `updateQueueStatus`. -/
structure QueueRecord where
  id : Nat
  status : QueueStatus
  retry_count : Int
  error_message : Option String
  processed_at : Option Int
  deriving Repr, DecidableEq

/-- One `processed_news` row as inserted by `saveBatchAnalysisResult`. -/
structure NewsRow where
  fda_announcement_id : String
  stock_ticker : Option String
  stock_exchange : Option String
  relevance_score : Int
  priority_level : String
  sentiment : String
  sentiment_strength : Int
  ai_summary : String
  market_impact_assessment : String
  tags : List String
  is_published : Bool
  published_at : Option Int
  deriving Repr, DecidableEq

/-- The two tables the classifier writes to. -/
structure DbState where
  processed_news : List NewsRow
  processing_queue : List QueueRecord
  deriving Repr, DecidableEq

/-- Embedding of `updateQueueStatus(queueId, status, errorMessage)`:
sets status and processed_at on the matching row; with an error message
it also stores the message and increments the retry count. -/
def updateQueueStatus (db : DbState) (queueId : Nat) (status : QueueStatus)
    (errorMessage : Option String) (now : Int) : DbState :=
  { db with
    processing_queue := db.processing_queue.map fun r =>
      if r.id = queueId then
        match errorMessage with
        | some msg =>
            { r with status := status, processed_at := some now,
                     error_message := some msg, retry_count := r.retry_count + 1 }
        | none => { r with status := status, processed_at := some now }
      else r }

/-- Result summary returned by `saveBatchAnalysisResult`. -/
inductive SaveResult where
  | suppressed
  | saved (published : Bool)
  deriving Repr, DecidableEq

/-- Embedding of `saveBatchAnalysisResult(queueItem, analysis)` in the
case where the datastore accepts the writes: a score below 30 completes
the queue entry and inserts nothing; otherwise a `processed_news` row is
inserted with publication decided by the 50 threshold, and the queue
entry is completed. -/
def saveBatchAnalysisResult (db : DbState) (queueItem : QueueItem)
    (analysis : ValidatedAnalysis) (now : Int) : DbState × SaveResult :=
  if analysis.relevance_score < 30 then
    (updateQueueStatus db queueItem.id .completed none now, .suppressed)
  else
    let row : NewsRow :=
      { fda_announcement_id := analysis.fda_announcement_id
        stock_ticker := analysis.stock_ticker
        stock_exchange := analysis.stock_exchange
        relevance_score := analysis.relevance_score
        priority_level := analysis.priority_level
        sentiment := analysis.sentiment
        sentiment_strength := analysis.sentiment_strength
        ai_summary := analysis.ai_summary
        market_impact_assessment := analysis.market_impact_assessment
        tags := analysis.tags
        is_published := analysis.relevance_score ≥ 50
        published_at := if analysis.relevance_score ≥ 50 then some now else none }
    (updateQueueStatus
      { db with processed_news := db.processed_news ++ [row] }
      queueItem.id .completed none now,
     .saved (decide (analysis.relevance_score ≥ 50)))

/-! ## Feed normalizers (rss-feed routes) -/

/-- One RSS 2.0 `item` as exposed by the XML parser (first element of
each repeated tag). -/
structure RSSItem where
  title : Option String
  description : Option String
  link : Option String
  pubDate : Option String
  deriving Repr, DecidableEq

/-- Identity-relevant part of the record built by `transformRSSItem`.
The heuristic extraction fields (sponsor, product, classification) are
independent of the identity and are not embedded. -/
structure FdaDraft where
  id : String
  title : String
  description : String
  link : String
  pub_date : Option String
  source : String
  feed_type : String
  deriving Repr, DecidableEq

/-- Embedding of `transformRSSItem(item, feedType, index)`.  The `now`
argument is the value of `Date.now()` at the run that performs the
transform; the source interpolates it into the generated id. -/
def transformRSSItem (item : RSSItem) (feedType : String) (index : Nat)
    (now : Int) : FdaDraft :=
  let title := (item.title).getD "FDA Announcement"
  let description := (item.description).getD ""
  let link := (item.link).getD ""
  { id := "fda-rss-" ++ feedType ++ "-" ++ toString now ++ "-" ++ toString index
    title := title
    description := jsTake description 500
    link := link
    pub_date := item.pubDate
    source := if feedType = "press_releases" then "FDA Press Releases"
              else "FDA MedWatch Alerts"
    feed_type := feedType }

/-- One Atom `entry` as exposed by the XML parser. -/
structure AtomEntry where
  title : Option String
  summary : Option String
  linkHref : Option String
  updated : Option String
  deriving Repr, DecidableEq

/-- Identity-relevant part of the record built by `transformSECEntry`. -/
structure SecDraft where
  id : String
  title : String
  summary : String
  link : String
  updated : Option String
  source : String
  deriving Repr, DecidableEq

/-- Embedding of `transformSECEntry(entry, index)`; as for the FDA
transform, `now` is the run's `Date.now()` value interpolated into the
generated id. -/
def transformSECEntry (entry : AtomEntry) (index : Nat) (now : Int) : SecDraft :=
  let title := (entry.title).getD "SEC Filing"
  let summary := (entry.summary).getD ""
  { id := "sec-" ++ toString now ++ "-" ++ toString index
    title := title
    summary := jsTake summary 500
    link := (entry.linkHref).getD ""
    updated := entry.updated
    source := "SEC EDGAR" }

/-! ## Time-window filters (calculateTimeframe) -/

/-- Milliseconds per day. -/
def msPerDay : Int := 86400000

/-- Milliseconds per hour. -/
def msPerHour : Int := 3600000

/-- Milliseconds per minute. -/
def msPerMinute : Int := 60000

/-- Civil date from a day count relative to 1970-01-01 (proleptic
Gregorian, UTC); standard era-based conversion. -/
def civilFromDays (z0 : Int) : Int × Int × Int :=
  let z := z0 + 719468
  let era := z.ediv 146097
  let doe := z - era * 146097
  let yoe := (doe - doe.ediv 1460 + doe.ediv 36524 - doe.ediv 146097).ediv 365
  let y := yoe + era * 400
  let doy := doe - (365 * yoe + yoe.ediv 4 - yoe.ediv 100)
  let mp := (5 * doy + 2).ediv 153
  let d := doy - (153 * mp + 2).ediv 5 + 1
  let m := mp + (if mp < 10 then 3 else -9)
  (if m ≤ 2 then y + 1 else y, m, d)

/-- Day count relative to 1970-01-01 from a civil date; linear in the
day argument, so a day past the end of the month rolls over exactly as
the JS Date setters do. -/
def daysFromCivil (y0 m d : Int) : Int :=
  let y := if m ≤ 2 then y0 - 1 else y0
  let era := y.ediv 400
  let yoe := y - era * 400
  let doy := (153 * (m + (if m > 2 then -3 else 9)) + 2).ediv 5 + d - 1
  let doe := yoe * 365 + yoe.ediv 4 - yoe.ediv 100 + doy
  era * 146097 + doe - 719468

/-- JS `date.setMonth(date.getMonth() - 1)` on a millisecond timestamp
(UTC): step the calendar month back by one keeping day-of-month and
time-of-day, with JS day-overflow rollover. -/
def setMonthMinusOne (ms : Int) : Int :=
  let day := ms.ediv msPerDay
  let tod := ms.emod msPerDay
  let c := civilFromDays day
  let m2 := c.2.1 - 1
  let y2 := if m2 < 1 then c.1 - 1 else c.1
  let m3 := if m2 < 1 then m2 + 12 else m2
  daysFromCivil y2 m3 c.2.2 * msPerDay + tod

namespace FdaFeed

/-- Embedding of `calculateTimeframe` from the FDA rss-feed route:
tokens 24h, 1w, 1m; anything else falls back to 24 hours. -/
def calculateTimeframe (now : Int) (timeframe : String) : Int :=
  if timeframe = "24h" then now - 24 * msPerHour
  else if timeframe = "1w" then now - 7 * msPerDay
  else if timeframe = "1m" then setMonthMinusOne now
  else now - 24 * msPerHour

end FdaFeed

namespace SecFeed

/-- Embedding of `calculateTimeframe` from the SEC rss-feed route:
tokens 1min, 10min, 1h; anything else falls back to 1 hour. -/
def calculateTimeframe (now : Int) (timeframe : String) : Int :=
  if timeframe = "1min" then now - 1 * msPerMinute
  else if timeframe = "10min" then now - 10 * msPerMinute
  else if timeframe = "1h" then now - 1 * msPerHour
  else now - 1 * msPerHour

end SecFeed

/-! ## Ingestion and dedup writer (ingest routes) -/

/-- The fields of an incoming FDA item that `ingestFDAItem` copies into
the `fda_announcements` row (the transformed `announcementData`). -/
structure FdaIngestItem where
  id : String
  category : String
  title : String
  description : String
  sponsor_name : Option String
  product_name : Option String
  announcement_date : String
  classification : Option String
  deriving Repr, DecidableEq

/-- One `fda_announcements` row: primary key, natural key `fda_id`, and
the stored payload. -/
structure AnnRow where
  rowId : Nat
  fda_id : String
  item : FdaIngestItem
  deriving Repr, DecidableEq

/-- One `processing_queue` row as inserted at ingestion time. -/
structure QueueEntryRow where
  fda_announcement_id : Nat
  status : QueueStatus
  deriving Repr, DecidableEq

/-- Datastore state touched by the FDA ingestion path; `nextRowId`
models primary-key generation. -/
structure IngestState where
  nextRowId : Nat
  fda_announcements : List AnnRow
  processing_queue : List QueueEntryRow
  deriving Repr, DecidableEq

/-- Embedding of `addToProcessingQueue(announcementId)`: inserts a
pending queue row unconditionally, with no check for an existing entry
for that announcement. -/
def addToProcessingQueue (st : IngestState) (announcementId : Nat) : IngestState :=
  { st with processing_queue :=
      st.processing_queue ++ [{ fda_announcement_id := announcementId, status := .pending }] }

/-- Embedding of `ingestFDAItem(fdaItem)`: look up by `fda_id`; update
the payload if a row exists, insert otherwise; then always enqueue. -/
def ingestFDAItem (st : IngestState) (fdaItem : FdaIngestItem) : IngestState :=
  match st.fda_announcements.find? (fun r => r.fda_id = fdaItem.id) with
  | some existing =>
      let st1 := { st with fda_announcements :=
        st.fda_announcements.map fun r =>
          if r.fda_id = fdaItem.id then { r with item := fdaItem } else r }
      addToProcessingQueue st1 existing.rowId
  | none =>
      let rid := st.nextRowId
      let st1 := { st with
        nextRowId := rid + 1
        fda_announcements :=
          st.fda_announcements ++ [{ rowId := rid, fda_id := fdaItem.id, item := fdaItem }] }
      addToProcessingQueue st1 rid

/-- Number of `fda_announcements` rows carrying a given natural key. -/
def countAnnouncements (st : IngestState) (fdaId : String) : Nat :=
  st.fda_announcements.countP (fun r => r.fda_id = fdaId)

/-- Number of queue rows referencing a given announcement row. -/
def countQueueFor (st : IngestState) (announcementId : Nat) : Nat :=
  st.processing_queue.countP (fun q => q.fda_announcement_id = announcementId)

/-- Whether some queue row for the announcement is in a non-failed state. -/
def nonFailedQueueExists (st : IngestState) (announcementId : Nat) : Bool :=
  st.processing_queue.any fun q =>
    q.fda_announcement_id = announcementId && q.status ≠ .failed

/-! ## Public-company filter (aiFilterCompanyBatch, both ingest routes) -/

/-- One company tuple sent to the filter (FDA variant). -/
structure CompanyCheck where
  fda_id : String
  company_name : String
  announcement_type : String
  deriving Repr, DecidableEq

/-- One element of the model's parsed JSON array for the company filter,
before cleaning (`is_public` carries the JS `Boolean(...)` coercion). -/
structure RawFilterResult where
  fda_id : Option String
  company_name : Option String
  is_public : Bool
  ticker : Option String
  exchange : Option String
  deriving Repr, DecidableEq

/-- One cleaned per-company verdict (FDA variant; the SEC variant adds
an exchange). -/
structure FilterVerdict where
  fda_id : Option String
  company_name : Option String
  is_public : Bool
  ticker : Option String
  deriving Repr, DecidableEq

/-- Outcome of the model call and defensive parse for the company
filter: any thrown error (API failure, invalid JSON, non-array) lands in
`failed`; otherwise the parsed array is available. -/
inductive FilterResponse (α : Type) where
  | failed
  | parsed (results : List α)
  deriving Repr, DecidableEq

/-- JS `a || b` where both sides are optional strings. -/
def jsStrOrOpt (a b : Option String) : Option String :=
  match a with
  | some s => if s = "" then b else some s
  | none => b

/-- Embedding of `aiFilterCompanyBatch(companyBatch)` from the FDA
ingest route: on success the parsed array is mapped one-to-one into
verdicts (index-aligned with the batch only for defaulted fields); on
any thrown error every company gets the conservative is_public fallback. -/
def aiFilterCompanyBatch (resp : FilterResponse RawFilterResult)
    (companyBatch : List CompanyCheck) : List FilterVerdict :=
  match resp with
  | .parsed results =>
      (results.zip (List.range results.length)).map fun p =>
        { fda_id := jsStrOrOpt p.1.fda_id ((companyBatch[p.2]?).map (·.fda_id))
          company_name :=
            jsStrOrOpt p.1.company_name ((companyBatch[p.2]?).map (·.company_name))
          is_public := p.1.is_public
          ticker :=
            match p.1.ticker with
            | some t => if t ≠ "" && t ≠ "null" then some (jsToUpper t) else none
            | none => none }
  | .failed =>
      companyBatch.map fun company =>
        { fda_id := some company.fda_id
          company_name := some company.company_name
          is_public := true
          ticker := none }

/-- One company tuple sent to the SEC filter. -/
structure SecCompanyCheck where
  sec_id : String
  company_name : String
  form_type : String
  filing_type : String
  ticker : Option String
  cik : Option String
  title : String
  deriving Repr, DecidableEq

/-- One element of the model's parsed JSON array for the SEC company
filter, before cleaning. -/
structure SecRawFilterResult where
  sec_id : Option String
  company_name : Option String
  is_public : Bool
  ticker : Option String
  exchange : Option String
  deriving Repr, DecidableEq

/-- One cleaned per-company verdict from the SEC filter. -/
structure SecFilterVerdict where
  sec_id : Option String
  company_name : Option String
  is_public : Bool
  ticker : Option String
  exchange : Option String
  deriving Repr, DecidableEq

/-- Embedding of `aiFilterCompanyBatch(companyBatch)` from the SEC
ingest route: same structure as the FDA variant, with an exchange field
and the company's known ticker reused in the fallback. -/
def aiFilterSECCompanyBatch (resp : FilterResponse SecRawFilterResult)
    (companyBatch : List SecCompanyCheck) : List SecFilterVerdict :=
  match resp with
  | .parsed results =>
      (results.zip (List.range results.length)).map fun p =>
        { sec_id := jsStrOrOpt p.1.sec_id ((companyBatch[p.2]?).map (·.sec_id))
          company_name :=
            jsStrOrOpt p.1.company_name ((companyBatch[p.2]?).map (·.company_name))
          is_public := p.1.is_public
          ticker :=
            match p.1.ticker with
            | some t => if t ≠ "" && t ≠ "null" then some (jsToUpper t) else none
            | none => none
          exchange :=
            match p.1.exchange with
            | some e => if e ≠ "" && e ≠ "null" then some (jsToUpper e) else none
            | none => none }
  | .failed =>
      companyBatch.map fun company =>
        { sec_id := some company.sec_id
          company_name := some company.company_name
          is_public := true
          ticker := company.ticker
          exchange := none }

/-! ## Shared fixtures for witnesses and counterexamples -/

/-- A sample announcement row (drug approval by a named sponsor). -/
def sampleAnn : FdaAnnouncement :=
  { id := "123e4567-e89b-12d3-a456-426614174000"
    fda_id := "FDA-2025-0001"
    announcement_type := "drug_approval"
    title := "FDA Approves Examplex"
    description := "Approval of Examplex for Acme Pharma"
    sponsor_name := some "Acme Pharma"
    product_name := some "Examplex"
    announcement_date := "2025-01-02"
    classification := none }

/-- A second sample announcement row (safety alert). -/
def sampleAnn2 : FdaAnnouncement :=
  { id := "00000000-0000-0000-0000-000000000002"
    fda_id := "FDA-2025-0002"
    announcement_type := "safety_alert"
    title := "FDA Recall: Widget"
    description := "Class I recall"
    sponsor_name := none
    product_name := none
    announcement_date := "2025-01-02"
    classification := some "Class I" }

/-- Sample queue items joining the sample announcements. -/
def sampleQueueItem : QueueItem := { id := 1, fda_announcements := sampleAnn }

/-- Second sample queue item. -/
def sampleQueueItem2 : QueueItem := { id := 2, fda_announcements := sampleAnn2 }

/-- A sample raw model analysis. -/
def sampleRaw : RawAnalysis :=
  { fda_announcement_id := some "123e4567-e89b-12d3-a456-426614174000"
    stock_ticker := some "acme"
    stock_exchange := some "nasdaq"
    relevance_score := some 72
    priority_level := some "high"
    sentiment := some "bullish"
    sentiment_strength := some 65
    ai_summary := some "A detailed professional summary."
    market_impact_assessment := some "Positive catalyst."
    tags := some ["FDA Approval", "biotech"] }

/-- A sample validated analysis with an adjustable relevance score. -/
def sampleValidated (score : Int) : ValidatedAnalysis :=
  { fda_announcement_id := "123e4567-e89b-12d3-a456-426614174000"
    stock_ticker := some "ACME"
    stock_exchange := some "NASDAQ"
    relevance_score := score
    priority_level := "high"
    sentiment := "bullish"
    sentiment_strength := 65
    ai_summary := "A detailed professional summary."
    market_impact_assessment := "Positive catalyst."
    tags := ["fda_approval", "biotech"] }

/-- A sample database state with one queue row in `processing`. -/
def sampleDb : DbState :=
  { processed_news := []
    processing_queue :=
      [{ id := 1, status := .processing, retry_count := 0,
         error_message := none, processed_at := none }] }

/-! ## Helper lemmas -/

/-- The clamp to the 0..100 band is bounded below by 0. -/
theorem clamp100_nonneg (v : Int) : 0 ≤ clamp100 v :=
  le_max_left 0 _

/-- The clamp to the 0..100 band is bounded above by 100. -/
theorem clamp100_le (v : Int) : clamp100 v ≤ 100 :=
  max_le (by norm_num) (min_le_left _ _)

/-- Updating a queue status does not touch the news table. -/
theorem updateQueueStatus_news (db : DbState) (qid : Nat) (st : QueueStatus)
    (e : Option String) (now : Int) :
    (updateQueueStatus db qid st e now).processed_news = db.processed_news := rfl

/-- After an error-free status update, every queue row with the target id
carries the new status. -/
theorem updateQueueStatus_status (db : DbState) (qid : Nat) (st : QueueStatus)
    (now : Int) :
    ∀ r ∈ (updateQueueStatus db qid st none now).processing_queue,
      r.id = qid → r.status = st := by
  intro r hr hid
  simp only [updateQueueStatus, List.mem_map] at hr
  obtain ⟨r0, _, rfl⟩ := hr
  by_cases h : r0.id = qid
  · simp [h]
  · simp only [if_neg h] at hid ⊢
    exact absurd hid h

/-! ## Claim C2: validation invariants -/

/-- C2: every record produced by the validation step
(`validateAndCleanAnalysis`, whatever the model returned) or by the
deterministic fallback (`getFallbackAnalysis`) has relevance score and
sentiment strength within 0..100, a priority in high/medium/low, a
sentiment in bullish/bearish/neutral, and at most 5 tags. -/
theorem classifier_validation_invariants (analysis : RawAnalysis)
    (queueItem : QueueItem) (announcement : FdaAnnouncement) :
    (0 ≤ (validateAndCleanAnalysis analysis queueItem).relevance_score
      ∧ (validateAndCleanAnalysis analysis queueItem).relevance_score ≤ 100
      ∧ 0 ≤ (validateAndCleanAnalysis analysis queueItem).sentiment_strength
      ∧ (validateAndCleanAnalysis analysis queueItem).sentiment_strength ≤ 100
      ∧ (validateAndCleanAnalysis analysis queueItem).priority_level ∈
          (["high", "medium", "low"] : List String)
      ∧ (validateAndCleanAnalysis analysis queueItem).sentiment ∈
          (["bullish", "bearish", "neutral"] : List String)
      ∧ (validateAndCleanAnalysis analysis queueItem).tags.length ≤ 5)
    ∧ (0 ≤ (getFallbackAnalysis announcement).relevance_score
      ∧ (getFallbackAnalysis announcement).relevance_score ≤ 100
      ∧ 0 ≤ (getFallbackAnalysis announcement).sentiment_strength
      ∧ (getFallbackAnalysis announcement).sentiment_strength ≤ 100
      ∧ (getFallbackAnalysis announcement).priority_level ∈
          (["high", "medium", "low"] : List String)
      ∧ (getFallbackAnalysis announcement).sentiment ∈
          (["bullish", "bearish", "neutral"] : List String)
      ∧ (getFallbackAnalysis announcement).tags.length ≤ 5) := by
  constructor
  · refine ⟨clamp100_nonneg _, clamp100_le _, clamp100_nonneg _, clamp100_le _, ?_, ?_, ?_⟩
    · simp only [validateAndCleanAnalysis]
      cases hp : analysis.priority_level with
      | none => simp
      | some p =>
          by_cases h : p = "high" ∨ p = "medium" ∨ p = "low"
          · rcases h with h | h | h <;> simp [h]
          · push_neg at h
            simp [h.1, h.2.1, h.2.2]
    · simp only [validateAndCleanAnalysis]
      cases hp : analysis.sentiment with
      | none => simp
      | some p =>
          by_cases h : p = "bullish" ∨ p = "bearish" ∨ p = "neutral"
          · rcases h with h | h | h <;> simp [h]
          · push_neg at h
            simp [h.1, h.2.1, h.2.2]
    · simp only [validateAndCleanAnalysis]
      cases ht : analysis.tags with
      | none => simp
      | some l =>
          simp only [List.length_map, List.length_take]
          omega
  · refine ⟨?_, ?_, ?_, ?_, ?_, ?_, ?_⟩
    · simp only [getFallbackAnalysis, fallbackScore]
      split_ifs <;> norm_num
    · simp only [getFallbackAnalysis, fallbackScore]
      split_ifs <;> norm_num
    · simp only [getFallbackAnalysis, fallbackSentimentPair]
      split_ifs <;> norm_num
    · simp only [getFallbackAnalysis, fallbackSentimentPair]
      split_ifs <;> norm_num
    · simp only [getFallbackAnalysis, fallbackPriority]
      split_ifs <;> simp
    · simp only [getFallbackAnalysis, fallbackSentimentPair]
      split_ifs <;> simp
    · simp [getFallbackAnalysis]

/-! ## Claim C5: unparseable response handled by fallback -/

/-- C5: when the model response is not JSON, or its top level is not an
array, the inner analysis throws, the error is caught at the batch
boundary, and every announcement of the sub-batch receives its
deterministic subtype-keyed fallback classification — the batch
function itself is total and never propagates the error. -/
theorem batch_fallback_on_parse_failure (batchItems : List QueueItem) :
    (∃ e, batchAnalyzeCore .notJson batchItems = .error e)
    ∧ (∃ e, batchAnalyzeCore .nonArray batchItems = .error e)
    ∧ batchAnalyzeWithClaude .notJson batchItems =
        batchItems.map (fun item => getFallbackAnalysis item.fda_announcements)
    ∧ batchAnalyzeWithClaude .nonArray batchItems =
        batchItems.map (fun item => getFallbackAnalysis item.fda_announcements) := by
  exact ⟨⟨_, rfl⟩, ⟨_, rfl⟩, rfl, rfl⟩

/-! ## Claim C6: unknown timeframe tokens -/

/-- C6 counterexample: on the SEC feed endpoint the unknown token "xyz"
yields a cutoff one hour before now, not the 24-hour cutoff the claim
asserts for every feed endpoint. -/
theorem sec_unknown_token_not_24h :
    SecFeed.calculateTimeframe 1000000000 "xyz" = 1000000000 - 3600000
    ∧ ¬ SecFeed.calculateTimeframe 1000000000 "xyz" = 1000000000 - 86400000 := by
  constructor
  · rfl
  · decide

/-- C6 amended: an unrecognized timeframe token falls back to the
endpoint's own documented default — 24 hours on the FDA feed (identical
to the token "24h") and 1 hour on the SEC feed (identical to the token
"1h"). -/
theorem unknown_token_falls_back_to_default (now : Int) (tf : String)
    (hfda : tf ∉ (["24h", "1w", "1m"] : List String))
    (hsec : tf ∉ (["1min", "10min", "1h"] : List String)) :
    FdaFeed.calculateTimeframe now tf = FdaFeed.calculateTimeframe now "24h"
    ∧ SecFeed.calculateTimeframe now tf = SecFeed.calculateTimeframe now "1h" := by
  simp only [List.mem_cons, List.mem_singleton, not_or] at hfda hsec
  constructor
  · simp [FdaFeed.calculateTimeframe, hfda.1, hfda.2.1, hfda.2.2.1]
  · simp [SecFeed.calculateTimeframe, hsec.1, hsec.2.1, hsec.2.2.1]

/-- Witness for the amended C6 theorem at the concrete token "xyz". -/
theorem unknown_token_falls_back_to_default_witness :
    FdaFeed.calculateTimeframe 0 "xyz" = FdaFeed.calculateTimeframe 0 "24h"
    ∧ SecFeed.calculateTimeframe 0 "xyz" = SecFeed.calculateTimeframe 0 "1h" :=
  unknown_token_falls_back_to_default 0 "xyz" (by decide) (by decide)

/-! ## Claim C10: company-filter length repair -/

/-- A sample pair of companies submitted to the public-company filter. -/
def sampleCompanyBatch : List CompanyCheck :=
  [{ fda_id := "fda-1", company_name := "Acme Pharma", announcement_type := "drug_approval" },
   { fda_id := "fda-2", company_name := "Beta Bio", announcement_type := "safety_alert" }]

/-- A single raw verdict, standing for a model reply that dropped one
entry of a two-company batch. -/
def sampleShortResults : List RawFilterResult :=
  [{ fda_id := some "fda-1", company_name := some "Acme Pharma",
     is_public := true, ticker := some "acme", exchange := some "NASDAQ" }]

/-- C10 counterexample: with two companies in the batch and a valid JSON
array of length one, the filter returns one verdict, not two — the
length mismatch is not repaired by padding. -/
theorem company_filter_no_padding :
    ¬ (aiFilterCompanyBatch (.parsed sampleShortResults) sampleCompanyBatch).length
        = sampleCompanyBatch.length := by
  decide

/-- C10 amended: when the model returns a valid JSON array the filter
maps it one verdict per model entry, so the per-batch output length
equals the model array length (whatever the batch length); exactly one
entry per input company is produced only by the catch-all conservative
fallback taken when parsing throws.  This holds for the FDA and the SEC
variant alike. -/
theorem company_filter_output_lengths (results : List RawFilterResult)
    (secResults : List SecRawFilterResult) (companyBatch : List CompanyCheck)
    (secBatch : List SecCompanyCheck) :
    (aiFilterCompanyBatch (.parsed results) companyBatch).length = results.length
    ∧ (aiFilterCompanyBatch .failed companyBatch).length = companyBatch.length
    ∧ (∀ v ∈ aiFilterCompanyBatch .failed companyBatch, v.is_public = true)
    ∧ (aiFilterSECCompanyBatch (.parsed secResults) secBatch).length = secResults.length
    ∧ (aiFilterSECCompanyBatch .failed secBatch).length = secBatch.length := by
  refine ⟨?_, ?_, ?_, ?_, ?_⟩
  · simp [aiFilterCompanyBatch]
  · simp [aiFilterCompanyBatch]
  · intro v hv
    simp only [aiFilterCompanyBatch, List.mem_map] at hv
    obtain ⟨c, _, rfl⟩ := hv
    rfl
  · simp [aiFilterSECCompanyBatch]
  · simp [aiFilterSECCompanyBatch]

/-! ## Claim C1: persistence bands of the relevance score -/

/-- C1: persisting a validated classification is a function of its
relevance score in three bands — below 30 the queue entry is completed
and no news row is created; in 30..49 a row is created unpublished with
no publish timestamp; at 50 and above a row is created published with a
publish timestamp.  In every band the queue entry ends `completed`. -/
theorem save_persistence_bands (db : DbState) (queueItem : QueueItem)
    (analysis : ValidatedAnalysis) (now : Int) :
    (analysis.relevance_score < 30 →
      (saveBatchAnalysisResult db queueItem analysis now).1.processed_news
          = db.processed_news
      ∧ ∀ r ∈ (saveBatchAnalysisResult db queueItem analysis now).1.processing_queue,
          r.id = queueItem.id → r.status = .completed)
    ∧ (30 ≤ analysis.relevance_score → analysis.relevance_score < 50 →
      ∃ row, (saveBatchAnalysisResult db queueItem analysis now).1.processed_news
            = db.processed_news ++ [row]
        ∧ row.is_published = false ∧ row.published_at = none
        ∧ row.relevance_score = analysis.relevance_score
        ∧ ∀ r ∈ (saveBatchAnalysisResult db queueItem analysis now).1.processing_queue,
            r.id = queueItem.id → r.status = .completed)
    ∧ (50 ≤ analysis.relevance_score →
      ∃ row, (saveBatchAnalysisResult db queueItem analysis now).1.processed_news
            = db.processed_news ++ [row]
        ∧ row.is_published = true ∧ row.published_at = some now
        ∧ row.relevance_score = analysis.relevance_score
        ∧ ∀ r ∈ (saveBatchAnalysisResult db queueItem analysis now).1.processing_queue,
            r.id = queueItem.id → r.status = .completed) := by
  refine ⟨?_, ?_, ?_⟩
  · intro h30
    rw [saveBatchAnalysisResult, if_pos h30]
    exact ⟨updateQueueStatus_news db queueItem.id .completed none now,
      updateQueueStatus_status db queueItem.id .completed now⟩
  · intro h30 h50
    rw [saveBatchAnalysisResult, if_neg (by omega)]
    refine ⟨_, updateQueueStatus_news _ queueItem.id .completed none now, ?_, ?_, rfl,
      updateQueueStatus_status _ queueItem.id .completed now⟩
    · simp only [decide_eq_false_iff_not, ge_iff_le]
      omega
    · simp only [ge_iff_le, if_neg (by omega : ¬ (50 : Int) ≤ analysis.relevance_score)]
  · intro h50
    rw [saveBatchAnalysisResult, if_neg (by omega)]
    refine ⟨_, updateQueueStatus_news _ queueItem.id .completed none now, ?_, ?_, rfl,
      updateQueueStatus_status _ queueItem.id .completed now⟩
    · simp only [decide_eq_true_eq, ge_iff_le]
      omega
    · simp only [ge_iff_le, if_pos h50]

/-- Witness for the C1 bands at scores 20, 40 and 70 on a concrete
database state. -/
theorem save_persistence_bands_witness :
    ((saveBatchAnalysisResult sampleDb sampleQueueItem (sampleValidated 20) 5).1.processed_news
        = sampleDb.processed_news
      ∧ ∀ r ∈ (saveBatchAnalysisResult sampleDb sampleQueueItem
            (sampleValidated 20) 5).1.processing_queue,
          r.id = sampleQueueItem.id → r.status = .completed)
    ∧ (∃ row, (saveBatchAnalysisResult sampleDb sampleQueueItem
            (sampleValidated 40) 5).1.processed_news
          = sampleDb.processed_news ++ [row]
        ∧ row.is_published = false ∧ row.published_at = none
        ∧ row.relevance_score = (sampleValidated 40).relevance_score
        ∧ ∀ r ∈ (saveBatchAnalysisResult sampleDb sampleQueueItem
              (sampleValidated 40) 5).1.processing_queue,
            r.id = sampleQueueItem.id → r.status = .completed)
    ∧ (∃ row, (saveBatchAnalysisResult sampleDb sampleQueueItem
            (sampleValidated 70) 5).1.processed_news
          = sampleDb.processed_news ++ [row]
        ∧ row.is_published = true ∧ row.published_at = some 5
        ∧ row.relevance_score = (sampleValidated 70).relevance_score
        ∧ ∀ r ∈ (saveBatchAnalysisResult sampleDb sampleQueueItem
              (sampleValidated 70) 5).1.processing_queue,
            r.id = sampleQueueItem.id → r.status = .completed) :=
  ⟨(save_persistence_bands sampleDb sampleQueueItem (sampleValidated 20) 5).1 (by decide),
   (save_persistence_bands sampleDb sampleQueueItem (sampleValidated 40) 5).2.1
     (by decide) (by decide),
   (save_persistence_bands sampleDb sampleQueueItem (sampleValidated 70) 5).2.2 (by decide)⟩

/-! ## Claim C4: short model arrays are padded to the batch size -/

/-- C4: when the parsed model array is shorter than the sub-batch, the
validated result list still has one entry per input announcement, and
each missing position holds the validated deterministic fallback for
that announcement's subtype. -/
theorem batch_pad_short_array (xs : List RawAnalysis) (batchItems : List QueueItem)
    (h : xs.length < batchItems.length) :
    (batchAnalyzeWithClaude (.jsonArr xs) batchItems).length = batchItems.length
    ∧ (batchAnalyzeWithClaude (.jsonArr xs) batchItems).drop xs.length =
        (batchItems.drop xs.length).map
          (fun item => validateAndCleanAnalysis
            (rawOfFallback (getFallbackAnalysis item.fda_announcements)) item) := by
  have hle : xs.length ≤ batchItems.length := Nat.le_of_lt h
  have hpad : (xs ++ (batchItems.drop xs.length).map
      (fun item => rawOfFallback (getFallbackAnalysis item.fda_announcements))).length
      = batchItems.length := by
    simp only [List.length_append, List.length_map, List.length_drop]
    omega
  simp only [batchAnalyzeWithClaude, batchAnalyzeCore,
    List.take_of_length_le (Nat.le_of_eq hpad)]
  constructor
  · simp only [List.length_zipWith, hpad, Nat.min_self]
  · rw [List.drop_zipWith]
    have hdl : (xs ++ (batchItems.drop xs.length).map
        (fun item => rawOfFallback (getFallbackAnalysis item.fda_announcements))).drop
          xs.length
        = (batchItems.drop xs.length).map
          (fun item => rawOfFallback (getFallbackAnalysis item.fda_announcements)) :=
      List.drop_left xs _
    rw [hdl, List.zipWith_map_left, List.zipWith_same]

/-- Witness for C4: a two-announcement sub-batch answered by a
one-element array yields two validated results, the second being the
validated fallback for the second announcement. -/
theorem batch_pad_short_array_witness :
    (batchAnalyzeWithClaude (.jsonArr [sampleRaw])
        [sampleQueueItem, sampleQueueItem2]).length = 2
    ∧ (batchAnalyzeWithClaude (.jsonArr [sampleRaw])
        [sampleQueueItem, sampleQueueItem2]).drop 1 =
        [validateAndCleanAnalysis
          (rawOfFallback (getFallbackAnalysis sampleAnn2)) sampleQueueItem2] :=
  batch_pad_short_array [sampleRaw] [sampleQueueItem, sampleQueueItem2] (by decide)

/-! ## Claim C7: upsert keeps one announcement row per natural key -/

/-- Updating payloads in place never changes how many rows carry a key. -/
theorem countAnnouncements_after_update (st : IngestState) (fdaItem : FdaIngestItem)
    (fdaId : String) :
    (st.fda_announcements.map fun r =>
        if r.fda_id = fdaItem.id then { r with item := fdaItem } else r).countP
      (fun r => r.fda_id = fdaId)
      = countAnnouncements st fdaId := by
  rw [countAnnouncements, List.countP_map]
  apply List.countP_congr
  intro r _
  by_cases h : r.fda_id = fdaItem.id <;> simp [Function.comp, h]

/-- Ingesting one item changes the row count for its natural key to 1
when no row carried the key, and leaves the count unchanged otherwise. -/
theorem countAnnouncements_ingestFDAItem (st : IngestState) (fdaItem : FdaIngestItem) :
    countAnnouncements (ingestFDAItem st fdaItem) fdaItem.id
      = max 1 (countAnnouncements st fdaItem.id) := by
  cases hfind : st.fda_announcements.find? (fun r => r.fda_id = fdaItem.id) with
  | none =>
      have h0 : countAnnouncements st fdaItem.id = 0 := by
        rw [countAnnouncements, List.countP_eq_zero]
        exact List.find?_eq_none.mp hfind
      simp only [ingestFDAItem]
      rw [hfind]
      simp only [countAnnouncements, addToProcessingQueue, List.countP_append]
      rw [countAnnouncements] at h0
      simp [h0]
  | some existing =>
      simp only [ingestFDAItem]
      rw [hfind]
      have hmem : existing ∈ st.fda_announcements := List.mem_of_find?_eq_some hfind
      have hpx := List.find?_some hfind
      have h1 : 1 ≤ List.countP (fun r => decide (r.fda_id = fdaItem.id))
          st.fda_announcements :=
        List.countP_pos_iff.mpr ⟨existing, hmem, hpx⟩
      have hupd := countAnnouncements_after_update st fdaItem fdaItem.id
      rw [countAnnouncements] at hupd
      simp only [countAnnouncements, addToProcessingQueue]
      rw [hupd]
      omega

/-- C7: ingesting the same item twice starting from a store that has no
row for its source-native id leaves exactly one announcement row for
that id — the second run takes the update branch instead of inserting a
second row. -/
theorem ingest_twice_single_row (st : IngestState) (fdaItem : FdaIngestItem)
    (h : countAnnouncements st fdaItem.id = 0) :
    countAnnouncements (ingestFDAItem (ingestFDAItem st fdaItem) fdaItem) fdaItem.id
      = 1 := by
  rw [countAnnouncements_ingestFDAItem, countAnnouncements_ingestFDAItem, h]
  decide

/-- An empty ingestion store. -/
def emptyIngestState : IngestState :=
  { nextRowId := 0, fda_announcements := [], processing_queue := [] }

/-- A sample incoming FDA item. -/
def sampleFdaItem : FdaIngestItem :=
  { id := "fda-1"
    category := "drug_approval"
    title := "FDA Approves Examplex by Acme Pharma"
    description := "FDA approved Examplex from Acme Pharma."
    sponsor_name := some "Acme Pharma"
    product_name := some "Examplex"
    announcement_date := "2025-01-02"
    classification := none }

/-- Witness for C7 on the empty store. -/
theorem ingest_twice_single_row_witness :
    countAnnouncements
      (ingestFDAItem (ingestFDAItem emptyIngestState sampleFdaItem) sampleFdaItem)
      sampleFdaItem.id = 1 :=
  ingest_twice_single_row emptyIngestState sampleFdaItem (by decide)

/-! ## Claim C9: queue entries on re-ingestion -/

/-- C9 counterexample: after a first ingestion the announcement row 0
has a pending (non-failed) queue entry, yet re-ingesting the same item
enqueues a second entry — the code never checks for an existing entry. -/
theorem reingest_duplicates_queue_entry :
    nonFailedQueueExists (ingestFDAItem emptyIngestState sampleFdaItem) 0 = true
    ∧ countQueueFor
        (ingestFDAItem (ingestFDAItem emptyIngestState sampleFdaItem) sampleFdaItem)
        0 = 2 := by
  decide

/-- C9 amended: every ingestion run unconditionally appends exactly one
new pending queue entry for the upserted announcement, whatever queue
entries (pending, completed or failed) already exist for it. -/
theorem ingest_always_enqueues (st : IngestState) (fdaItem : FdaIngestItem) :
    ∃ announcementId,
      (ingestFDAItem st fdaItem).processing_queue
        = st.processing_queue
          ++ [{ fda_announcement_id := announcementId, status := .pending }] := by
  cases hfind : st.fda_announcements.find? (fun r => r.fda_id = fdaItem.id) with
  | none =>
      refine ⟨st.nextRowId, ?_⟩
      simp only [ingestFDAItem]
      rw [hfind]
      simp [addToProcessingQueue]
  | some existing =>
      refine ⟨existing.rowId, ?_⟩
      simp only [ingestFDAItem]
      rw [hfind]
      simp [addToProcessingQueue]

/-! ## Claim C3: stability of the generated feed-entry ids -/

/-- A fixed RSS item, used to normalize the same feed entry in two runs. -/
def sampleRSSItem : RSSItem :=
  { title := some "FDA Approves Examplex"
    description := some "Approval announcement"
    link := some "https://www.fda.gov/news/1"
    pubDate := some "Thu, 02 Jan 2025 09:00:00 EST" }

/-- A fixed Atom entry, used to normalize the same filing in two runs. -/
def sampleAtomEntry : AtomEntry :=
  { title := some "ACME PHARMA INC - Form 8-K"
    summary := some "Current report"
    linkHref := some "https://www.sec.gov/cgi-bin/browse-edgar?action=getcompany"
    updated := some "2025-01-02T09:00:00-05:00" }

/-- C3 evaluation at the failing input: normalizing the identical feed
item (same title, link, publication timestamp, position) in two runs
whose clocks read 1000 and 2000 yields two different ids on both the
FDA and the SEC normalizer, because the id interpolates the run clock. -/
theorem same_item_distinct_ids_across_runs :
    (transformRSSItem sampleRSSItem "press_releases" 0 1000).id
        = "fda-rss-press_releases-1000-0"
    ∧ (transformRSSItem sampleRSSItem "press_releases" 0 2000).id
        = "fda-rss-press_releases-2000-0"
    ∧ (transformRSSItem sampleRSSItem "press_releases" 0 1000).id
        ≠ (transformRSSItem sampleRSSItem "press_releases" 0 2000).id
    ∧ (transformSECEntry sampleAtomEntry 0 1000).id
        ≠ (transformSECEntry sampleAtomEntry 0 2000).id := by
  refine ⟨rfl, rfl, ?_, ?_⟩ <;> decide

/-! ## Claim C8: exchange field under validation -/

/-- A raw analysis whose exchange is a lower-case string outside the
NYSE/NASDAQ/OTC/AMEX set. -/
def sampleRawLse : RawAnalysis :=
  { sampleRaw with stock_exchange := some "lse" }

/-- C8 counterexample: validation merely upper-cases the model's
exchange string, so "lse" persists as "LSE", which is neither null nor a
member of the closed set NYSE/NASDAQ/OTC/AMEX. -/
theorem exchange_not_restricted_to_enum :
    ¬ ((validateAndCleanAnalysis sampleRawLse sampleQueueItem).stock_exchange = none
      ∨ ∃ e, (validateAndCleanAnalysis sampleRawLse sampleQueueItem).stock_exchange
            = some e
          ∧ e ∈ (["NYSE", "NASDAQ", "OTC", "AMEX"] : List String)) := by
  have hval : (validateAndCleanAnalysis sampleRawLse sampleQueueItem).stock_exchange
      = some "LSE" := by decide
  rintro (hnone | ⟨e, he, hmem⟩)
  · rw [hval] at hnone
    exact Option.some_ne_none _ hnone
  · rw [hval] at he
    obtain rfl : "LSE" = e := Option.some_injective _ he
    revert hmem
    decide

/-- C8 amended: scores, strengths, priority, sentiment, tag count and
string lengths are clamped, but the exchange field is only upper-cased:
the validated exchange is null exactly when the model gave no non-empty
string, and otherwise is the model's string upper-cased, with no
membership check against NYSE/NASDAQ/OTC/AMEX. -/
theorem exchange_validation_shape (analysis : RawAnalysis) (queueItem : QueueItem) :
    ((validateAndCleanAnalysis analysis queueItem).stock_exchange = none
      ∧ (analysis.stock_exchange = none ∨ analysis.stock_exchange = some ""))
    ∨ (∃ s, analysis.stock_exchange = some s ∧ s ≠ ""
        ∧ (validateAndCleanAnalysis analysis queueItem).stock_exchange
            = some (jsToUpper s)) := by
  cases hx : analysis.stock_exchange with
  | none => exact Or.inl ⟨by simp [validateAndCleanAnalysis, hx], Or.inl rfl⟩
  | some s =>
      by_cases hs : s = ""
      · subst hs
        exact Or.inl ⟨by simp [validateAndCleanAnalysis, hx], Or.inr rfl⟩
      · exact Or.inr ⟨s, rfl, hs, by simp [validateAndCleanAnalysis, hx, hs]⟩
